import Mathlib

/-!
Shallow embedding of `src/deps/v8/src/wasm/wasm-result.h`: the error-propagation
primitives `WasmError`, `Result<T>`, `ErrorThrower` and `ScheduledErrorThrower`.

Only the header is present in the repository snapshot; the bodies of
`ErrorThrower::Format`, `ErrorThrower::Reset`, `ErrorThrower::Reify` and
`~ScheduledErrorThrower` live in `wasm-result.cc`, which is absent. Those are
modelled from the spec and marked as such in their doc comments. printf-style
formatting is treated as a black-box string builder (as the spec prescribes):
the category setters take the already-built message string.

`DCHECK` assertions are modelled explicitly where a claim is about them:
`Result::value` returns an `Option`, where `none` stands for the debug
assertion firing (no value is produced on that path).
-/

/-- `WasmError` (wasm-result.h:30-65): an offset + message pair.
Default construction gives offset 0 and the empty message ("no error"). -/
structure WasmError where
  offset_ : Nat := 0
  message_ : String := ""
deriving Repr, DecidableEq

/-- `WasmError::empty` (wasm-result.h:50): true iff the message is empty. -/
def WasmError.empty (e : WasmError) : Bool := e.message_.isEmpty

/-- `WasmError::has_error` (wasm-result.h:51): true iff the message is non-empty. -/
def WasmError.has_error (e : WasmError) : Bool := !e.message_.isEmpty

/-- `WasmError::offset` (wasm-result.h:55). -/
def WasmError.offset (e : WasmError) : Nat := e.offset_

/-- `WasmError::message` (wasm-result.h:56-57). -/
def WasmError.message (e : WasmError) : String := e.message_

/-- `Result<T>` (wasm-result.h:68-120): a value of type `T` plus a `WasmError`;
the emptiness of the error is the discriminant. The C++ members default to
`T{}` and an empty `WasmError`. -/
structure Result (T : Type) where
  value_ : T
  error_ : WasmError := {}

/-- `Result::Result(U&& value)` (wasm-result.h:85-86): construct an ok result
holding the given value; the error member stays default (empty). -/
def Result.fromValue {T : Type} (v : T) : Result T := { value_ := v }

/-- `Result::Result(WasmError)` (wasm-result.h:88): construct a failed result
storing the given error; the value member is default-constructed (`T{}`). -/
def Result.fromError {T : Type} [Inhabited T] (e : WasmError) : Result T :=
  { value_ := default, error_ := e }

/-- `Result::ok` (wasm-result.h:99): true iff the stored error is empty. -/
def Result.ok {T : Type} (r : Result T) : Bool := r.error_.empty

/-- `Result::failed` (wasm-result.h:100): true iff the stored error is non-empty. -/
def Result.failed {T : Type} (r : Result T) : Bool := r.error_.has_error

/-- `Result::error` (wasm-result.h:101-102): the stored `WasmError`. -/
def Result.error {T : Type} (r : Result T) : WasmError := r.error_

/-- `Result::value` (wasm-result.h:108-115): `DCHECK(ok())` then return the
stored value. `none` models the debug assertion firing on a failed result. -/
def Result.value {T : Type} (r : Result T) : Option T :=
  if r.ok then some r.value_ else none

/-- `Result::operator Result<U>` (wasm-result.h:93-97): convert an rvalue
`Result<T>` to `Result<U>`; `f` is the `T`-to-`U` conversion. If `ok()`, the
moved value is converted; otherwise the `WasmError` is carried across. -/
def Result.convert {T U : Type} [Inhabited U] (f : T → U) (r : Result T) : Result U :=
  if r.ok then Result.fromValue (f r.value_) else Result.fromError r.error_

/-- `ErrorThrower::ErrorType` (wasm-result.h:157-169), in declaration order:
`kNone`, the general errors `kTypeError`, `kRangeError`, then the wasm errors
`kCompileError`, `kLinkError`, `kRuntimeError`. -/
inductive ErrorType where
  | kNone
  | kTypeError
  | kRangeError
  | kCompileError
  | kLinkError
  | kRuntimeError
deriving Repr, DecidableEq, BEq

/-- Underlying enumerator value of each `ErrorType`, as assigned by C++
(consecutive from 0 in declaration order). -/
def ErrorType.toNat : ErrorType → Nat
  | .kNone => 0
  | .kTypeError => 1
  | .kRangeError => 2
  | .kCompileError => 3
  | .kLinkError => 4
  | .kRuntimeError => 5

/-- The marker `kFirstWasmError = kCompileError` (wasm-result.h:168). -/
def kFirstWasmError : ErrorType := .kCompileError

/-- `ErrorThrower` (wasm-result.h:123-181): context label, current error
category and message. The `Isolate*` is an opaque host handle and carries no
state used by the claims, so it is omitted. The constructor
(wasm-result.h:125-126) leaves `error_type_ = kNone` and the message empty,
matching the field defaults here. -/
structure ErrorThrower where
  context_ : String
  error_type_ : ErrorType := .kNone
  error_msg_ : String := ""
deriving Repr, DecidableEq

/-- Modelled from the spec: the body of `ErrorThrower::Format`
(declared wasm-result.h:171, defined in the absent wasm-result.cc). Per spec
§4.3 each category setter "builds the message, and sets `category` to the
corresponding value", unconditionally overwriting any pending error.
Formatting is the spec's black-box string builder, so the built message is a
parameter. -/
def ErrorThrower.Format (t : ErrorThrower) (ty : ErrorType) (msg : String) : ErrorThrower :=
  { t with error_type_ := ty, error_msg_ := msg }

/-- `ErrorThrower::TypeError` (wasm-result.h:133): format and set `kTypeError`. -/
def ErrorThrower.TypeError (t : ErrorThrower) (msg : String) : ErrorThrower :=
  t.Format .kTypeError msg

/-- `ErrorThrower::RangeError` (wasm-result.h:134): format and set `kRangeError`. -/
def ErrorThrower.RangeError (t : ErrorThrower) (msg : String) : ErrorThrower :=
  t.Format .kRangeError msg

/-- `ErrorThrower::CompileError` (wasm-result.h:135): format and set `kCompileError`. -/
def ErrorThrower.CompileError (t : ErrorThrower) (msg : String) : ErrorThrower :=
  t.Format .kCompileError msg

/-- `ErrorThrower::LinkError` (wasm-result.h:136): format and set `kLinkError`. -/
def ErrorThrower.LinkError (t : ErrorThrower) (msg : String) : ErrorThrower :=
  t.Format .kLinkError msg

/-- `ErrorThrower::RuntimeError` (wasm-result.h:137): format and set `kRuntimeError`. -/
def ErrorThrower.RuntimeError (t : ErrorThrower) (msg : String) : ErrorThrower :=
  t.Format .kRuntimeError msg

/-- `ErrorThrower::CompileFailed` (wasm-result.h:139-142):
`CompileError("%s @+%u", error.message().c_str(), error.offset())`; that format
string renders as the message, followed by a space, `@+`, and the decimal
rendering of the offset. (The `DCHECK(error.has_error())` is a caller
contract.) -/
def ErrorThrower.CompileFailed (t : ErrorThrower) (e : WasmError) : ErrorThrower :=
  t.CompileError (e.message ++ " @+" ++ toString e.offset)

/-- Modelled from the spec: the body of `ErrorThrower::Reset`
(declared wasm-result.h:148, defined in the absent wasm-result.cc). Per spec
§4.3 it "clears `category` to `None` and the message to empty; does not
reify" — it has no host-visible effect, which this pure state transformer
reflects. -/
def ErrorThrower.Reset (t : ErrorThrower) : ErrorThrower :=
  { t with error_type_ := .kNone, error_msg_ := "" }

/-- `ErrorThrower::error` (wasm-result.h:150): `error_type_ != kNone`. -/
def ErrorThrower.error (t : ErrorThrower) : Bool := t.error_type_ ≠ .kNone

/-- `ErrorThrower::wasm_error` (wasm-result.h:151):
`error_type_ >= kFirstWasmError`, comparing the underlying enum values. -/
def ErrorThrower.wasm_error (t : ErrorThrower) : Bool :=
  kFirstWasmError.toNat ≤ t.error_type_.toNat

/-- `ErrorThrower::error_msg` (wasm-result.h:152): the current message. -/
def ErrorThrower.error_msg (t : ErrorThrower) : String := t.error_msg_

/-- Modelled from the spec: the body of `~ScheduledErrorThrower`
(declared wasm-result.h:194, defined in the absent wasm-result.cc). Per spec
§4.4, on destruction a still-pending error is converted into the host's
scheduled-exception mechanism, consuming the pending error; with no pending
error nothing happens. The first component is the list of scheduled-exception
messages the destructor creates (so its length counts host scheduled-exception
creations); the second is the accumulator state the destructor leaves behind
(the pending error consumed, showing no pending-error leak). -/
def ScheduledErrorThrower.destruct (t : ErrorThrower) : List String × ErrorThrower :=
  if t.error then ([t.error_msg_], t.Reset) else ([], t)

/-- C2: for every value `v`, a `Result` constructed from `v` is ok and
`value()` returns `v`. -/
theorem result_fromValue_ok_and_value (T : Type) (v : T) :
    (Result.fromValue v).ok = true ∧ (Result.fromValue v).value = some v := by
  have hok : (Result.fromValue v).ok = true := rfl
  refine ⟨hok, ?_⟩
  unfold Result.value
  rw [hok]
  simp [Result.fromValue]

/-- C3: for every `WasmError` with a non-empty message, a `Result<T>`
constructed from it is failed, and the stored error keeps its offset and
message. -/
theorem result_fromError_failed (T : Type) [Inhabited T] (e : WasmError)
    (h : e.has_error = true) :
    (Result.fromError (T := T) e).failed = true
      ∧ (Result.fromError (T := T) e).error.offset = e.offset
      ∧ (Result.fromError (T := T) e).error.message = e.message := by
  exact ⟨h, rfl, rfl⟩

/-- Witness for C3 at the spec's concrete scenario
`Result<int>(ErrorValue(10, "bad byte"))`. -/
theorem result_fromError_failed_witness :
    (WasmError.mk 10 "bad byte").has_error = true
      ∧ ((Result.fromError (T := Int) ⟨10, "bad byte"⟩).failed = true
        ∧ (Result.fromError (T := Int) ⟨10, "bad byte"⟩).error.offset
            = (WasmError.mk 10 "bad byte").offset
        ∧ (Result.fromError (T := Int) ⟨10, "bad byte"⟩).error.message
            = (WasmError.mk 10 "bad byte").message) :=
  ⟨by decide, result_fromError_failed Int ⟨10, "bad byte"⟩ (by decide)⟩

/-- C4: converting an rvalue `Result<T>` to `Result<U>` (via the conversion
`f`) yields an ok container with the converted value when the source is ok,
and a failed container with the same `WasmError` when the source is failed. -/
theorem result_convert_spec (T U : Type) [Inhabited U] (f : T → U) (r : Result T) :
    (r.ok = true → (r.convert f).ok = true ∧ (r.convert f).value = some (f r.value_))
      ∧ (r.failed = true → (r.convert f).failed = true ∧ (r.convert f).error = r.error) := by
  constructor
  · intro h
    have hm : r.error_.message_.isEmpty = true := by
      simpa [Result.ok, WasmError.empty] using h
    simp [Result.convert, Result.ok, WasmError.empty, hm, Result.fromValue,
      Result.value, show "".isEmpty = true from rfl]
  · intro h
    have hm : r.error_.message_.isEmpty = false := by
      simpa [Result.failed, WasmError.has_error] using h
    simp [Result.convert, Result.ok, WasmError.empty, hm, Result.fromError,
      Result.failed, Result.error, WasmError.has_error]

/-- Witness for C4: an ok `Result Nat` holding 5 converted to `Result Int`,
and a failed `Result Nat` carrying offset 10, message "bad byte". -/
theorem result_convert_spec_witness :
    (((Result.fromValue (5 : Nat)).convert Int.ofNat).ok = true
      ∧ ((Result.fromValue (5 : Nat)).convert Int.ofNat).value
          = some (Int.ofNat 5))
    ∧ (((Result.fromError (T := Nat) ⟨10, "bad byte"⟩).convert Int.ofNat).failed = true
      ∧ ((Result.fromError (T := Nat) ⟨10, "bad byte"⟩).convert Int.ofNat).error
          = (Result.fromError (T := Nat) ⟨10, "bad byte"⟩).error) :=
  ⟨(result_convert_spec Nat Int Int.ofNat (Result.fromValue 5)).1 (by decide),
   (result_convert_spec Nat Int Int.ofNat
      (Result.fromError ⟨10, "bad byte"⟩)).2 (by decide)⟩

/-- C8: `value()` on an ok container returns the held value without hitting the
`DCHECK`; on a failed container the debug assertion fires (`none`: no value is
produced on that path). -/
theorem result_value_contract (T : Type) (r : Result T) :
    (r.ok = true → r.value = some r.value_) ∧ (r.failed = true → r.value = none) := by
  constructor
  · intro h
    simp [Result.value, h]
  · intro h
    have hok : r.ok = false := by
      simp [Result.failed, WasmError.has_error] at h
      simp [Result.ok, WasmError.empty, h]
    simp [Result.value, hok]

/-- Witness for C8 at `Result Nat` holding 7 (ok) and a failed `Result Nat`. -/
theorem result_value_contract_witness :
    (Result.fromValue (7 : Nat)).value = some 7
      ∧ (Result.fromError (T := Nat) ⟨3, "err"⟩).value = none :=
  ⟨(result_value_contract Nat (Result.fromValue 7)).1 (by decide),
   (result_value_contract Nat (Result.fromError ⟨3, "err"⟩)).2 (by decide)⟩

/-- C1 counterexample: the claim's exception clause — that `CompileFailed`
composes the offset into the message "rather than overwriting the category" —
is false. Starting from a pending `kTypeError`, `CompileFailed` does overwrite
the category (to `kCompileError`), because it invokes the `CompileError`
setter (wasm-result.h:141). -/
theorem compileFailed_overwrites_category :
    ((ErrorThrower.mk "ctx" .kNone "").TypeError "x").error_type_ = .kTypeError
      ∧ (((ErrorThrower.mk "ctx" .kNone "").TypeError "x").CompileFailed
            ⟨10, "bad byte"⟩).error_type_
          ≠ ((ErrorThrower.mk "ctx" .kNone "").TypeError "x").error_type_ := by
  exact ⟨rfl, by decide⟩

/-- C1 (amended): every category-setting call, from any prior accumulator
state, unconditionally overwrites both the pending category and message (last
call wins) — and `CompileFailed` is no exception: it overwrites the category
to `kCompileError` and the message to the `WasmError`'s message with the
offset composed in as `" @+<offset>"`. -/
theorem setters_last_write_wins (t : ErrorThrower) (msg : String) (e : WasmError) :
    ((t.TypeError msg).error_type_ = .kTypeError ∧ (t.TypeError msg).error_msg = msg)
      ∧ ((t.RangeError msg).error_type_ = .kRangeError ∧ (t.RangeError msg).error_msg = msg)
      ∧ ((t.CompileError msg).error_type_ = .kCompileError
          ∧ (t.CompileError msg).error_msg = msg)
      ∧ ((t.LinkError msg).error_type_ = .kLinkError ∧ (t.LinkError msg).error_msg = msg)
      ∧ ((t.RuntimeError msg).error_type_ = .kRuntimeError
          ∧ (t.RuntimeError msg).error_msg = msg)
      ∧ ((t.CompileFailed e).error_type_ = .kCompileError
          ∧ (t.CompileFailed e).error_msg = e.message ++ " @+" ++ toString e.offset) :=
  ⟨⟨rfl, rfl⟩, ⟨rfl, rfl⟩, ⟨rfl, rfl⟩, ⟨rfl, rfl⟩, ⟨rfl, rfl⟩, ⟨rfl, rfl⟩⟩

/-- C5: `CompileFailed` on a `WasmError` with message `m` and offset `n` sets
the accumulator's message to `m ++ " @+" ++ <decimal n>` and makes
`wasm_error()` true (the category becomes `kCompileError`). -/
theorem compileFailed_message_and_category (t : ErrorThrower) (e : WasmError)
    (h : e.has_error = true) :
    (t.CompileFailed e).error_msg = e.message ++ " @+" ++ toString e.offset
      ∧ (t.CompileFailed e).wasm_error = true :=
  ⟨rfl, rfl⟩

/-- Witness for C5 at the spec's concrete scenario
`CompileFailed(ErrorValue(10, "bad byte"))`, rendering `"bad byte @+10"`. -/
theorem compileFailed_message_and_category_witness :
    ((ErrorThrower.mk "wasm" .kNone "").CompileFailed ⟨10, "bad byte"⟩).error_msg
        = "bad byte @+10"
      ∧ ((ErrorThrower.mk "wasm" .kNone "").CompileFailed ⟨10, "bad byte"⟩).wasm_error
        = true := by
  have h := compileFailed_message_and_category (ErrorThrower.mk "wasm" .kNone "")
    ⟨10, "bad byte"⟩ (by decide)
  exact ⟨h.1.trans (by decide), h.2⟩

/-- C6: `wasm_error()` holds exactly on the domain categories (`kCompileError`
and more severe); after the `CompileError` setter both `error()` and
`wasm_error()` are true, while after the `TypeError` setter `error()` is true
but `wasm_error()` is false. -/
theorem wasm_error_tier_discriminator :
    (∀ (t : ErrorThrower) (msg : String),
        (t.CompileError msg).error = true ∧ (t.CompileError msg).wasm_error = true
          ∧ (t.TypeError msg).error = true ∧ (t.TypeError msg).wasm_error = false)
      ∧ (∀ t : ErrorThrower,
          t.wasm_error = true
            ↔ (t.error_type_ = .kCompileError ∨ t.error_type_ = .kLinkError
                ∨ t.error_type_ = .kRuntimeError)) := by
  constructor
  · intro t msg
    exact ⟨rfl, rfl, rfl, rfl⟩
  · intro t
    obtain ⟨c, ty, m⟩ := t
    cases ty <;> simp [ErrorThrower.wasm_error, kFirstWasmError, ErrorType.toNat]

/-- C7: after `Reset()`, from any accumulator state, `error()` is false,
`wasm_error()` is false, `error_msg()` is empty, and nothing is reified: a
subsequent scoped destruction schedules no exception. -/
theorem reset_clears_all (t : ErrorThrower) :
    (t.Reset).error = false ∧ (t.Reset).wasm_error = false
      ∧ (t.Reset).error_msg = "" ∧ (ScheduledErrorThrower.destruct (t.Reset)).1 = [] :=
  ⟨rfl, rfl, rfl, rfl⟩

/-- C9: destroying a `ScheduledErrorThrower` that still holds a pending error
creates exactly one scheduled exception — carrying the pending message — and
leaves no pending error behind. -/
theorem scoped_destruct_schedules_once (t : ErrorThrower) (h : t.error = true) :
    (ScheduledErrorThrower.destruct t).1 = [t.error_msg]
      ∧ (ScheduledErrorThrower.destruct t).1.length = 1
      ∧ ((ScheduledErrorThrower.destruct t).2).error = false := by
  unfold ScheduledErrorThrower.destruct
  rw [h]
  exact ⟨rfl, rfl, rfl⟩

/-- Witness for C9: an accumulator given `RuntimeError("boom")` and destroyed
without `Reify()`/`Reset()` schedules exactly the one exception "boom". -/
theorem scoped_destruct_schedules_once_witness :
    (ScheduledErrorThrower.destruct
        ((ErrorThrower.mk "api" .kNone "").RuntimeError "boom")).1
      = [((ErrorThrower.mk "api" .kNone "").RuntimeError "boom").error_msg]
    ∧ (ScheduledErrorThrower.destruct
        ((ErrorThrower.mk "api" .kNone "").RuntimeError "boom")).1.length = 1
    ∧ ((ScheduledErrorThrower.destruct
        ((ErrorThrower.mk "api" .kNone "").RuntimeError "boom")).2).error = false :=
  scoped_destruct_schedules_once ((ErrorThrower.mk "api" .kNone "").RuntimeError "boom")
    (by decide)

/-- C10: in every accumulator state, `wasm_error()` implies `error()` — a
category at or above `kCompileError` is never `kNone`. -/
theorem wasm_error_implies_error (t : ErrorThrower) (h : t.wasm_error = true) :
    t.error = true := by
  obtain ⟨c, ty, m⟩ := t
  cases ty <;> simp_all [ErrorThrower.wasm_error, ErrorThrower.error,
    kFirstWasmError, ErrorType.toNat]

/-- Witness for C10 at a state holding a `kCompileError`. -/
theorem wasm_error_implies_error_witness :
    (ErrorThrower.mk "c" .kCompileError "m").error = true :=
  wasm_error_implies_error (ErrorThrower.mk "c" .kCompileError "m") (by decide)
